import Mathlib

/-!
Shallow embedding of the message relay pipeline in `src/copier.py`.

Conventions of the embedding:
* clock readings (`loop.time()`, `datetime.utcnow()`) are rationals passed
  explicitly;
* the SQLite table `forwarded` (primary key `hash`) is an association list
  keyed by the hash string, and `INSERT OR REPLACE` removes any row with the
  same key before inserting the new one;
* the SHA-256 hexdigest in `build_hash` is modelled by its preimage string
  (the `'|'.join(parts)` value): the digest is a deterministic function of the
  preimage, and the pipeline only ever compares fingerprints for equality;
* Python regular-expression search (`re.search`) is an explicit function
  parameter `regexSearch`;
* `message.date.time()` and the parsed `HH:MM` window bounds are seconds of
  the day;
* the outcome of each external Telegram call is an explicit parameter
  (`AttemptResult` per target, `SendOutcome` per flood-retry attempt).
-/

set_option autoImplicit false

namespace Copier

/-- Media classes distinguished by `detect_media_type` (lines 231-244),
in the `isinstance` order of the source. -/
inductive MediaKind where
  | photo | document | video | audio | geo | poll
  | dice | contact | game | invoice | webpage
  deriving DecidableEq, Repr

/-- A `message.media` value.  `document_id` is `some d` exactly when the media
object has a `document` attribute with id `d` (`hasattr(message.media,
'document')` in `build_hash`, line 248). -/
structure Media where
  kind : MediaKind
  document_id : Option Nat
  deriving DecidableEq, Repr

/-- A Telethon `Message` restricted to the fields the pipeline reads:
`id`, `text`, `media`, `sender.username` (outer `Option`: is there a sender;
inner: does the sender have a username), and `date.time()` in seconds of the
day. -/
structure Message where
  id : Nat
  text : Option String
  media : Option Media
  sender_username : Option (Option String)
  date_secs : Nat
  deriving DecidableEq, Repr

/-- Embeds `detect_media_type` (lines 231-244): the media-type name, or `none` when
there is no recognised media. -/
def detect_media_type (media : Option Media) : Option String :=
  match media with
  | none => none
  | some m =>
    match m.kind with
    | .photo => some "photo"
    | .document => some "document"
    | .video => some "video"
    | .audio => some "audio"
    | .geo => some "geo"
    | .poll => some "poll"
    | .dice => some "dice"
    | .contact => some "contact"
    | .game => some "game"
    | .invoice => some "invoice"
    | .webpage => some "webpage"

/-- Python's substring test `pat in s` (the empty pattern is in every
string). -/
def strContainsSub (s pat : String) : Bool :=
  if pat = "" then true else 1 < (s.splitOn pat).length

/-- A per-source `filters` configuration dict (lines 60-79).  Absent keys get
the `filters.get(...)` defaults of `apply_filters`.  `time_window` holds the
parsed `HH:MM` bounds in seconds of the day. -/
structure Filters where
  keywords : List String := []
  regex : Option String := none
  senders : Option (List String) := none
  time_window : Option (Nat × Nat) := none
  media_types : List String := ["any"]
  min_length : Nat := 0
  strict_mode : Bool := false
  deriving DecidableEq, Repr

/-- Embeds `apply_filters` (lines 179-221).  `regexSearch pat text` models
`re.search(pat, text, re.IGNORECASE) is not None`.  Python truthiness is kept:
an empty keyword list, an empty sender list and an empty regex pattern skip
their checks; a message whose text is `None` or `''` is falsy. -/
def apply_filters (m : Message) (f : Filters) (regexSearch : String → String → Bool) : Bool :=
  if (m.text.getD "" == "") && !f.strict_mode then
    true
  else
    let text := m.text.getD ""
    let upper_text := text.toUpper
    if !f.keywords.isEmpty && !(f.keywords.any fun k => strContainsSub upper_text k) then
      false
    else if (match f.regex with
             | some pat => !(pat == "") && !(regexSearch pat text)
             | none => false) then
      false
    else if (match f.senders with
             | some ss =>
               !ss.isEmpty &&
                 (match m.sender_username with
                  | none => true
                  | some none => true
                  | some (some u) => !(ss.contains u))
             | none => false) then
      false
    else if (match f.time_window with
             | some se => !(decide (se.1 ≤ m.date_secs) && decide (m.date_secs ≤ se.2))
             | none => false) then
      false
    else if !(f.media_types.contains "any") &&
            !(match detect_media_type m.media with
              | some mt => f.media_types.contains mt
              | none => false) then
      false
    else if text.length < f.min_length then
      false
    else
      true

/-- Embeds `build_hash` (lines 246-251), modelled as the SHA-256 preimage
`'|'.join(parts)`: text (or `''`), `str(message.id)`, the media-type name (or
`''`), plus the media document id when the media object has one. -/
def build_hash (m : Message) : String :=
  let parts := [m.text.getD "", toString m.id, (detect_media_type m.media).getD ""]
  let parts :=
    match m.media with
    | some med =>
      match med.document_id with
      | some did => parts ++ [toString did]
      | none => parts
    | none => parts
  String.intercalate "|" parts

/-- One row of the `forwarded` table (without its primary-key column). -/
structure Row where
  source_id : Int
  message_id : Nat
  timestamp : ℚ
  metadata : String
  deriving DecidableEq, Repr

/-- The `forwarded` table: an association list keyed by the `hash` column
(the primary key). -/
abbrev Store := List (String × Row)

/-- Embeds `is_duplicate` (lines 152-159): is there a row with this hash, this
source id, and a timestamp newer than `now` minus the dedup window (given in
the same time unit as the clock)? -/
def is_duplicate (window : ℚ) (st : Store) (msg_hash : String) (source_id : Int)
    (now : ℚ) : Bool :=
  st.any fun e =>
    e.1 == msg_hash && e.2.source_id == source_id && decide (now - window < e.2.timestamp)

/-- Embeds `record_hash` (lines 161-167): `INSERT OR REPLACE` keyed by the hash —
any row with the same hash is dropped and the fresh row (timestamped `now`)
inserted. -/
def record_hash (st : Store) (msg_hash : String) (source_id : Int) (message_id : Nat)
    (meta : String) (now : ℚ) : Store :=
  (msg_hash, ⟨source_id, message_id, now, meta⟩) :: st.filter fun e => e.1 != msg_hash

/-- The `metadata` dict built in `forward_message` (line 318), serialised. -/
def metadata (m : Message) : String :=
  toString (m.text.getD "").length ++ "|" ++ (detect_media_type m.media).getD ""

/-- The `RateLimiter` state (lines 256-262): the configured per-send delay, the
retry bound and backoff factor for flood handling, and the time of the last
send.  The semaphore is modelled by sequential state passing. -/
structure RateLimiter where
  delay : ℚ
  max_retries : Nat
  backoff_factor : Nat
  last_send : ℚ
  deriving DecidableEq, Repr

/-- The sleep `acquire` performs when called at clock time `now`
(lines 266-269): `delay - delta` when `delta < delay`, else nothing. -/
def RateLimiter.sleep_needed (rl : RateLimiter) (now : ℚ) : ℚ :=
  if now - rl.last_send < rl.delay then rl.delay - (now - rl.last_send) else 0

/-- Embeds `acquire` (lines 264-270): after sleeping, `last_send` is set to the
second clock reading `now2` (taken after the sleep). -/
def RateLimiter.acquire (rl : RateLimiter) (now2 : ℚ) : RateLimiter :=
  { rl with last_send := now2 }

/-- Outcome of one `func(*args)` call inside `handle_flood`: success, or a
fresh `FloodWaitError` carrying its `seconds`. -/
inductive SendOutcome where
  | ok
  | flood (seconds : ℚ)
  deriving DecidableEq, Repr

/-- The retry loop of `handle_flood` (lines 272-279) with `n` attempts left,
`attempt` the current loop index, `e` the seconds of the flood error in hand,
and `acc` the sleeps performed so far.  Each attempt first sleeps
`e.seconds + backoff_factor ** attempt`, then calls `func`; a new flood error
replaces `e`; when the range is exhausted, `e` is re-raised. -/
def handleFloodAux (backoff : Nat) (outcomes : Nat → SendOutcome) :
    Nat → Nat → ℚ → List ℚ → Except ℚ Unit × List ℚ
  | 0, _, e, acc => (.error e, acc)
  | n + 1, attempt, e, acc =>
    let slept := acc ++ [e + (backoff : ℚ) ^ attempt]
    match outcomes attempt with
    | .ok => (.ok (), slept)
    | .flood s => handleFloodAux backoff outcomes n (attempt + 1) s slept

/-- Embeds `RateLimiter.handle_flood` (lines 272-279).  The method reads
`self.max_retries` and `self.backoff_factor` and assigns no field, so the
limiter state is returned unchanged; the second component is the result
(`.error s` models the final `raise e`) together with the list of sleeps
performed. -/
def RateLimiter.handle_flood (rl : RateLimiter) (e : ℚ) (outcomes : Nat → SendOutcome) :
    RateLimiter × (Except ℚ Unit × List ℚ) :=
  (rl, handleFloodAux rl.backoff_factor outcomes rl.max_retries 0 e [])

/-- A target's `rules` dict (lines 81-92). -/
structure Rules where
  allow_media : Bool
  allow_text : Bool
  anti_loop : Bool
  deriving DecidableEq, Repr

/-- One entry of `TARGET_CHATS`. -/
structure Target where
  chat_id : Int
  rules : Rules
  deriving DecidableEq, Repr

/-- Whether `perform_forward` (lines 329-339) issues a send for this message
under these rules: media messages are forwarded when `allow_media`, else
non-empty text is sent when `allow_text`, else nothing happens. -/
def wouldSend (m : Message) (r : Rules) : Bool :=
  if m.media.isSome && r.allow_media then true
  else if !(m.text.getD "" == "") && r.allow_text then true
  else false

/-- Outcome of the guarded send to one target (lines 341-358): clean success;
a `FloodWaitError` from which `handle_flood` recovered; a `FloodWaitError`
whose retries were exhausted so `handle_flood` re-raised (carrying the final
`seconds`); or a caught `ChannelPrivateError`/`ChatAdminRequiredError`,
`RPCError`, or other exception. -/
inductive AttemptResult where
  | ok
  | floodThenOk
  | floodExhausted (seconds : ℚ)
  | accessErr
  | rpcErr
  | otherErr
  deriving DecidableEq, Repr

/-- What the loop body does for one target. -/
inductive TargetResult where
  | skipped
  | raised (seconds : ℚ)
  | done (sent : Bool)
  deriving DecidableEq, Repr

/-- The body of the per-target loop in `forward_message` (lines 320-358):
`continue` when `anti_loop` and the source equals the target; otherwise an
exhausted flood retry re-raises out of the loop, caught error classes are
logged and the loop continues, and a successful attempt sends exactly when
`wouldSend`. -/
def target_step (m : Message) (source_id : Int) (t : Target) (res : AttemptResult) :
    TargetResult :=
  if t.rules.anti_loop && source_id == t.chat_id then .skipped
  else
    match res with
    | .floodExhausted s => .raised s
    | .ok => .done (wouldSend m t.rules)
    | .floodThenOk => .done (wouldSend m t.rules)
    | .accessErr => .done false
    | .rpcErr => .done false
    | .otherErr => .done false

/-- The per-target loop of `forward_message` over `TARGET_CHATS`: one
`(chat_id, sent?)` entry per target processed, aborted by an uncaught
re-raised flood error. -/
def forwardLoop (m : Message) (source_id : Int) (results : Int → AttemptResult) :
    List Target → Except ℚ (List (Int × Bool))
  | [] => .ok []
  | t :: ts =>
    match target_step m source_id t (results t.chat_id) with
    | .skipped => (forwardLoop m source_id results ts).map fun ds => (t.chat_id, false) :: ds
    | .raised s => .error s
    | .done sent => (forwardLoop m source_id results ts).map fun ds => (t.chat_id, sent) :: ds

/-- Embeds `forward_message` (lines 304-360): drop when the filters reject; compute
the fingerprint and drop when `is_duplicate`; otherwise run the target loop
(an exhausted flood retry propagates out as `.error`), and after the loop
completes record the fingerprint unconditionally.  Returns the new store and
the `(chat_id, sent?)` record of the loop. -/
def forward_message (window : ℚ) (targets : List Target) (f : Filters)
    (regexSearch : String → String → Bool) (st : Store) (m : Message)
    (source_id : Int) (now : ℚ) (results : Int → AttemptResult) :
    Except ℚ (Store × List (Int × Bool)) :=
  if !apply_filters m f regexSearch then .ok (st, [])
  else
    let msg_hash := build_hash m
    if is_duplicate window st msg_hash source_id now then .ok (st, [])
    else
      match forwardLoop m source_id results targets with
      | .error s => .error s
      | .ok ds => .ok (record_hash st msg_hash source_id m.id (metadata m) now, ds)

/-- Error raised by a bounded queue at capacity. -/
inductive QueueError where
  | queueFull
  deriving DecidableEq, Repr

/-- Modelled from the spec: the bounded Priority Queue of spec section 4.2 is
not present in `src/` (the handler calls `forward_message` directly).  Per the
spec's contract, the queue is a bounded buffer whose `enqueue` fails fast with
`QueueFull` once the configured capacity is reached. -/
structure BoundedQueue (α : Type) where
  capacity : Nat
  items : List α
  deriving DecidableEq, Repr

/-- Modelled from the spec: `enqueue(item)` fails with `QueueFull` when
capacity is reached, otherwise appends the item. -/
def BoundedQueue.enqueue {α : Type} (q : BoundedQueue α) (a : α) :
    Except QueueError (BoundedQueue α) :=
  if q.capacity ≤ q.items.length then .error .queueFull
  else .ok { q with items := q.items ++ [a] }

/-! Concrete configurations and messages used by counterexamples and
witnesses. -/

/-- A filter configuration holding only the `filters.get` defaults; it accepts
any non-empty text. -/
def exFilters : Filters := {}

/-- A filter configuration whose keyword and length checks would reject the
example messages if they were reached. -/
def exHardFilters : Filters := { keywords := ["NOPE"], min_length := 100 }

/-- A regex-search oracle that never matches. -/
def exRS : String → String → Bool := fun _ _ => false

/-- Text-only message with id 3 (the spec's dedup scenario). -/
def exMsg3 : Message := ⟨3, some "BUY GOLD", none, none, 0⟩

/-- Text-only message with id 4 and the same text as `exMsg3`. -/
def exMsg4 : Message := ⟨4, some "BUY GOLD", none, none, 0⟩

/-- A media-only message (no text body). -/
def exMediaMsg : Message := ⟨9, none, some ⟨.photo, none⟩, none, 0⟩

/-- A target chat with `anti_loop` enabled. -/
def exTarget : Target := ⟨100, ⟨true, true, true⟩⟩

/-- Per-target outcomes: every attempt succeeds cleanly. -/
def exOk : Int → AttemptResult := fun _ => .ok

/-- The caught per-target error classes (access, RPC, unknown): the attempt
fails but the loop continues (lines 347-358). -/
def isFailOutcome : AttemptResult → Bool
  | .accessErr => true
  | .rpcErr => true
  | .otherErr => true
  | _ => false

/-- The store after `exMsg3` has been forwarded once from chat `-1001` at
time 0. -/
def exStoreA : Store := record_hash [] (build_hash exMsg3) (-1001) 3 (metadata exMsg3) 0

/-- Same id, text and media as `exMsg3`, but a different sender and date. -/
def exMsg3b : Message := ⟨3, some "BUY GOLD", none, some (some "alice"), 120⟩

/-- A target chat with `anti_loop` disabled. -/
def exTargetNL : Target := ⟨100, ⟨true, true, false⟩⟩

/-! Helper lemmas shared between claim theorems. -/

/-- When every attempt raises a flood error with the same `seconds` value,
the retry loop sleeps `s + backoff ^ attempt` once per remaining attempt and
finally re-raises. -/
theorem handleFloodAux_const (b : Nat) (s : ℚ) :
    ∀ (n k : Nat) (acc : List ℚ),
      handleFloodAux b (fun _ => SendOutcome.flood s) n k s acc =
        (Except.error s, acc ++ (List.range' k n).map fun i => s + (b : ℚ) ^ i)
  | 0, k, acc => by simp [handleFloodAux]
  | n + 1, k, acc => by
    rw [show List.range' k (n + 1) = k :: List.range' (k + 1) n from rfl]
    simp only [handleFloodAux, List.map_cons]
    rw [handleFloodAux_const b s n (k + 1) (acc ++ [s + (b : ℚ) ^ k])]
    simp

/-- The retry loop performs at most `n` more sleeps than it started with. -/
theorem handleFloodAux_length (b : Nat) (f : Nat → SendOutcome) :
    ∀ (n k : Nat) (e : ℚ) (acc : List ℚ),
      ((handleFloodAux b f n k e acc).2).length ≤ acc.length + n
  | 0, _, _, acc => by simp [handleFloodAux]
  | n + 1, k, e, acc => by
    simp only [handleFloodAux]
    cases hf : f k with
    | ok =>
      show (acc ++ [e + (b : ℚ) ^ k]).length ≤ acc.length + (n + 1)
      simp only [List.length_append, List.length_singleton]
      omega
    | flood s =>
      show (handleFloodAux b f n (k + 1) s (acc ++ [e + (b : ℚ) ^ k])).2.length ≤
        acc.length + (n + 1)
      have ih := handleFloodAux_length b f n (k + 1) s (acc ++ [e + (b : ℚ) ^ k])
      simp only [List.length_append, List.length_singleton] at ih
      omega

/-- A loop in which every target's attempt fails with a caught error class
completes with every target marked not-sent. -/
theorem forwardLoop_fail (m : Message) (source_id : Int) (results : Int → AttemptResult) :
    ∀ ts : List Target, (∀ t ∈ ts, isFailOutcome (results t.chat_id) = true) →
      forwardLoop m source_id results ts = .ok (ts.map fun t => (t.chat_id, false))
  | [], _ => rfl
  | t :: ts, hall => by
    have ht : isFailOutcome (results t.chat_id) = true := hall t (by simp)
    have hts : ∀ t' ∈ ts, isFailOutcome (results t'.chat_id) = true :=
      fun t' h' => hall t' (by simp [h'])
    have hstep : target_step m source_id t (results t.chat_id) = .skipped ∨
        target_step m source_id t (results t.chat_id) = .done false := by
      unfold target_step
      split
      · exact Or.inl rfl
      · cases hr : results t.chat_id <;> simp_all [isFailOutcome]
    rcases hstep with h | h <;>
      simp [forwardLoop, h, forwardLoop_fail m source_id results ts hts, Except.map]

/-! Claim theorems. -/

/-- Claim C1 counterexample: the same message (hence the same fingerprint) is
processed from source chat `-1001` at time 0 and from source chat `-1002` at
time 5, inside the 15-minute window; `is_duplicate` filters on the source id,
so the second event is not detected as a duplicate and both are delivered to
target 100 — refuting "at most one is delivered ... regardless of which
source chat it arrived from". -/
theorem C1_counterexample :
    forward_message 15 [exTarget] exFilters exRS [] exMsg3 (-1001) 0 exOk =
      .ok (exStoreA, [(100, true)]) ∧
    forward_message 15 [exTarget] exFilters exRS exStoreA exMsg3 (-1002) 5 exOk =
      .ok (record_hash exStoreA (build_hash exMsg3) (-1002) 3 (metadata exMsg3) 5,
           [(100, true)]) :=
  ⟨rfl, rfl⟩

/-- Claim C1 (amended): deduplication is keyed by the pair (fingerprint,
source chat).  Once `record_hash` has stored a fingerprint for a source,
`is_duplicate` for the same fingerprint and the same source observes it at
every instant inside the retention window, and `forward_message` drops any
event that `is_duplicate` flags, leaving the store unchanged and delivering
nothing. -/
theorem C1_amended_per_source_dedup (st st2 : Store) (h : String) (s : Int) (mid : Nat)
    (meta : String) (now1 now2 w : ℚ) (targets : List Target) (f : Filters)
    (rs : String → String → Bool) (m : Message) (source_id : Int) (now3 : ℚ)
    (results : Int → AttemptResult)
    (hwin : now2 - w < now1)
    (hdup : is_duplicate w st2 (build_hash m) source_id now3 = true) :
    is_duplicate w (record_hash st h s mid meta now1) h s now2 = true ∧
    forward_message w targets f rs st2 m source_id now3 results = .ok (st2, []) := by
  constructor
  · simp [is_duplicate, record_hash, hwin]
  · cases hf : apply_filters m f rs <;> simp [forward_message, hf, hdup]

theorem C1_amended_witness :
    ((1 : ℚ) - 15 < 0 ∧
     is_duplicate 15 exStoreA (build_hash exMsg3) (-1001) 5 = true) ∧
    (is_duplicate 15 (record_hash [] "k" 7 1 "m" 0) "k" 7 1 = true ∧
     forward_message 15 [exTarget] exFilters exRS exStoreA exMsg3 (-1001) 5 exOk =
       .ok (exStoreA, [])) :=
  ⟨⟨by norm_num, by norm_num [exStoreA, record_hash, is_duplicate]⟩,
   C1_amended_per_source_dedup [] exStoreA "k" 7 1 "m" 0 1 15 [exTarget] exFilters exRS
     exMsg3 (-1001) 5 exOk (by norm_num)
     (by norm_num [exStoreA, record_hash, is_duplicate])⟩

/-- Claim C2 counterexample: `exMsg3` and `exMsg4` have identical text and no
media, yet their fingerprints differ, because `build_hash` feeds
`str(message.id)` into the digest and applies no normalization; consequently
enqueuing the same content twice (ids 3 and 4) is delivered twice — the
second call still sends to target 100 instead of being deduplicated. -/
theorem C2_counterexample :
    exMsg3.text = exMsg4.text ∧ exMsg3.media = none ∧ exMsg4.media = none ∧
    build_hash exMsg3 ≠ build_hash exMsg4 ∧
    forward_message 15 [exTarget] exFilters exRS exStoreA exMsg4 (-1001) 0 exOk =
      .ok (record_hash exStoreA (build_hash exMsg4) (-1001) 4 (metadata exMsg4) 0,
           [(100, true)]) :=
  ⟨rfl, rfl, rfl, by decide, rfl⟩

/-- Claim C2 (amended): the fingerprint is a deterministic function of the
raw (unnormalized) text, the message id, and the media value: two messages
agreeing on those three fields receive equal fingerprints.  No case-folding,
whitespace-collapsing or link-stripping is applied, and the inclusion of the
message id makes fingerprints of distinct messages differ even for identical
content. -/
theorem C2_amended_deterministic (m1 m2 : Message) (ht : m1.text = m2.text)
    (hid : m1.id = m2.id) (hm : m1.media = m2.media) :
    build_hash m1 = build_hash m2 := by
  unfold build_hash
  rw [ht, hid, hm]

theorem C2_amended_witness :
    exMsg3.text = exMsg3b.text ∧ exMsg3.id = exMsg3b.id ∧ exMsg3.media = exMsg3b.media ∧
    build_hash exMsg3 = build_hash exMsg3b :=
  ⟨rfl, rfl, rfl, C2_amended_deterministic exMsg3 exMsg3b rfl rfl rfl⟩

/-- Claim C3 counterexample: handling a flood signal of 30 seconds (all
retries also flooded) leaves the rate limiter completely unchanged — in
particular the per-send delay afterwards is not greater than before; the
handler only sleeps `30 + 2^attempt` per attempt and re-raises.  There is no
cooldown field to set. -/
theorem C3_counterexample :
    (RateLimiter.mk (1/2) 3 2 0).handle_flood 30 (fun _ => SendOutcome.flood 30) =
      (RateLimiter.mk (1/2) 3 2 0, Except.error 30, [31, 32, 34]) ∧
    ¬ ((RateLimiter.mk (1/2) 3 2 0).delay <
        ((RateLimiter.mk (1/2) 3 2 0).handle_flood 30
          (fun _ => SendOutcome.flood 30)).1.delay) := by
  constructor
  · unfold RateLimiter.handle_flood
    rw [handleFloodAux_const]
    norm_num [List.range']
  · simp [RateLimiter.handle_flood]

/-- Claim C3 (amended): a throttle signal has no persistent effect on rate
state.  `handle_flood` returns the limiter unchanged (the code assigns no
field, and there is no `cooldownUntil`); its whole effect is to sleep
`retryAfter + backoff_factor ^ attempt` before each of the `retry_max`
attempts and, when every attempt floods again, to re-raise the final error. -/
theorem C3_amended_no_delay_change (rl : RateLimiter) (s : ℚ) :
    rl.handle_flood s (fun _ => SendOutcome.flood s) =
      (rl, Except.error s,
        (List.range rl.max_retries).map fun i => s + (rl.backoff_factor : ℚ) ^ i) := by
  unfold RateLimiter.handle_flood
  rw [List.range_eq_range', handleFloodAux_const]
  simp

/-- Claim C4 counterexample: the only target fails with a caught access
error (`ChannelPrivateError`), so nothing is delivered, yet `forward_message`
still records the fingerprint — the store changes on error. -/
theorem C4_counterexample :
    forward_message 15 [exTarget] exFilters exRS [] exMsg3 (-1001) 0
        (fun _ => AttemptResult.accessErr) =
      .ok (record_hash [] (build_hash exMsg3) (-1001) 3 (metadata exMsg3) 0,
           [(100, false)]) ∧
    record_hash [] (build_hash exMsg3) (-1001) 3 (metadata exMsg3) 0 ≠ ([] : Store) :=
  ⟨rfl, by decide⟩

/-- Claim C4 (amended): the fingerprint is recorded whenever the target loop
completes, regardless of delivery success — permanent, RPC and unknown errors
are caught per target and the hash is recorded all the same; only an
exhausted flood retry aborts `forward_message` before `record_hash`. -/
theorem C4_amended_records_despite_failures (window : ℚ) (targets : List Target)
    (f : Filters) (rs : String → String → Bool) (st : Store) (m : Message)
    (source_id : Int) (now : ℚ) (results : Int → AttemptResult)
    (hfilt : apply_filters m f rs = true)
    (hdup : is_duplicate window st (build_hash m) source_id now = false)
    (hall : ∀ t ∈ targets, isFailOutcome (results t.chat_id) = true) :
    forward_message window targets f rs st m source_id now results =
      .ok (record_hash st (build_hash m) source_id m.id (metadata m) now,
           targets.map fun t => (t.chat_id, false)) := by
  simp [forward_message, hfilt, hdup, forwardLoop_fail m source_id results targets hall]

theorem C4_amended_witness :
    apply_filters exMsg3 exFilters exRS = true ∧
    is_duplicate 15 [] (build_hash exMsg3) (-1001) 0 = false ∧
    (∀ t ∈ [exTarget], isFailOutcome ((fun _ => AttemptResult.rpcErr) t.chat_id) = true) ∧
    forward_message 15 [exTarget] exFilters exRS [] exMsg3 (-1001) 0
        (fun _ => AttemptResult.rpcErr) =
      .ok (record_hash [] (build_hash exMsg3) (-1001) 3 (metadata exMsg3) 0,
           [exTarget].map fun t => (t.chat_id, false)) :=
  ⟨by decide, by decide, by decide,
   C4_amended_records_despite_failures 15 [exTarget] exFilters exRS [] exMsg3 (-1001) 0
     (fun _ => AttemptResult.rpcErr) (by decide) (by decide) (by decide)⟩

/-- Claim C6 counterexample: when the single target's flood retries are
exhausted, the re-raised `FloodWaitError` escapes `forward_message` (result
`.error 30`): the failure is not handled locally, nothing is logged as a
permanent failure by the handler, and the fingerprint is never recorded. -/
theorem C6_counterexample :
    forward_message 15 [exTarget] exFilters exRS [] exMsg3 (-1001) 0
      (fun _ => AttemptResult.floodExhausted 30) = Except.error 30 :=
  rfl

/-- Claim C6 (amended): flood handling retries at most `retry_max` times
(the sleep list never exceeds `max_retries` entries), and once the retries
are exhausted the flood error propagates out of `forward_message` as an
exception instead of being dropped-and-logged locally. -/
theorem C6_amended_bounded_retries_then_raise (rl : RateLimiter) (e : ℚ)
    (outcomes : Nat → SendOutcome) (window : ℚ) (t : Target) (ts : List Target)
    (f : Filters) (rs : String → String → Bool) (st : Store) (m : Message)
    (source_id : Int) (now : ℚ) (results : Int → AttemptResult) (s : ℚ)
    (hstep : target_step m source_id t (results t.chat_id) = .raised s)
    (hfilt : apply_filters m f rs = true)
    (hdup : is_duplicate window st (build_hash m) source_id now = false) :
    ((rl.handle_flood e outcomes).2.2).length ≤ rl.max_retries ∧
    forward_message window (t :: ts) f rs st m source_id now results = .error s := by
  constructor
  · have hlen := handleFloodAux_length rl.backoff_factor outcomes rl.max_retries 0 e []
    simpa [RateLimiter.handle_flood] using hlen
  · simp [forward_message, hfilt, hdup, forwardLoop, hstep]

theorem C6_amended_witness :
    target_step exMsg3 (-1001) exTargetNL
        ((fun _ => AttemptResult.floodExhausted 30) exTargetNL.chat_id) = .raised 30 ∧
    apply_filters exMsg3 exFilters exRS = true ∧
    is_duplicate 15 [] (build_hash exMsg3) (-1001) 0 = false ∧
    (((RateLimiter.mk (1/2) 3 2 0).handle_flood 30 (fun _ => SendOutcome.flood 30)).2.2).length ≤
        (RateLimiter.mk (1/2) 3 2 0).max_retries ∧
    forward_message 15 [exTargetNL] exFilters exRS [] exMsg3 (-1001) 0
      (fun _ => AttemptResult.floodExhausted 30) = Except.error 30 :=
  ⟨by decide, by decide, by decide,
   C6_amended_bounded_retries_then_raise (RateLimiter.mk (1/2) 3 2 0) 30
     (fun _ => SendOutcome.flood 30) 15 exTargetNL [] exFilters exRS [] exMsg3 (-1001) 0
     (fun _ => AttemptResult.floodExhausted 30) 30 (by decide) (by decide) (by decide)⟩

/-- Claim C5: `acquire` separates consecutive sends by at least the delay.
`now` is the clock reading on entry and `now2` the reading after the sleep;
the hypothesis says the clock advanced by at least the requested sleep.  The
new `last_send` (the send instant) then exceeds the previous one by at least
`delay`.  Mutual exclusion (the semaphore) is modelled by sequential state
passing. -/
theorem C5_rate_separation (rl : RateLimiter) (now now2 : ℚ)
    (hclock : now + rl.sleep_needed now ≤ now2) :
    rl.delay ≤ (rl.acquire now2).last_send - rl.last_send := by
  unfold RateLimiter.sleep_needed at hclock
  show rl.delay ≤ now2 - rl.last_send
  split at hclock
  · linarith
  · linarith

theorem C5_witness :
    (0 : ℚ) + (RateLimiter.mk (1/2) 3 2 0).sleep_needed 0 ≤ 1/2 ∧
    (RateLimiter.mk (1/2) 3 2 0).delay ≤
      ((RateLimiter.mk (1/2) 3 2 0).acquire (1/2)).last_send -
        (RateLimiter.mk (1/2) 3 2 0).last_send :=
  ⟨by norm_num [RateLimiter.sleep_needed],
   C5_rate_separation (RateLimiter.mk (1/2) 3 2 0) 0 (1/2)
     (by norm_num [RateLimiter.sleep_needed])⟩

/-- Claim C7 (modelled from the spec, the queue is absent from `src/`): a
queue at capacity rejects `enqueue` with `QueueFull`, and any successful
`enqueue` keeps the size within the configured capacity. -/
theorem C7_backpressure {α : Type} (qf qo q' : BoundedQueue α) (a b : α)
    (hfull : qf.capacity ≤ qf.items.length) (hok : qo.enqueue b = .ok q') :
    qf.enqueue a = .error .queueFull ∧ q'.items.length ≤ qo.capacity := by
  constructor
  · simp [BoundedQueue.enqueue, hfull]
  · unfold BoundedQueue.enqueue at hok
    split at hok
    · simp at hok
    · injection hok with h2
      subst h2
      simp only [List.length_append, List.length_singleton]
      omega

theorem C7_witness :
    (BoundedQueue.mk 2 [0, 1] : BoundedQueue Nat).capacity ≤
      (BoundedQueue.mk 2 [0, 1] : BoundedQueue Nat).items.length ∧
    (BoundedQueue.mk 2 [0] : BoundedQueue Nat).enqueue 5 = .ok (BoundedQueue.mk 2 [0, 5]) ∧
    ((BoundedQueue.mk 2 [0, 1] : BoundedQueue Nat).enqueue 7 = .error .queueFull ∧
     (BoundedQueue.mk 2 [0, 5] : BoundedQueue Nat).items.length ≤ 2) :=
  ⟨by decide, by rfl,
   C7_backpressure (BoundedQueue.mk 2 [0, 1]) (BoundedQueue.mk 2 [0]) (BoundedQueue.mk 2 [0, 5])
     7 5 (by decide) (by rfl)⟩

/-- Claim C8: `record_hash` is idempotent (re-recording the same fingerprint
with the same arguments leaves the table unchanged), and after `record_hash`
returns, `is_duplicate` for the same hash and source observes `true` at every
query instant `now2` before the entry expires (`now2 - window < now`). -/
theorem C8_record_idempotent_seen (st : Store) (h : String) (s : Int) (mid : Nat)
    (meta : String) (now now2 w : ℚ) (hwin : now2 - w < now) :
    record_hash (record_hash st h s mid meta now) h s mid meta now =
      record_hash st h s mid meta now ∧
    is_duplicate w (record_hash st h s mid meta now) h s now2 = true := by
  constructor
  · simp [record_hash, List.filter_filter]
  · simp [is_duplicate, record_hash, hwin]

theorem C8_witness :
    (1 : ℚ) - 2 < 0 ∧
    (record_hash (record_hash [] "a" 1 1 "m" 0) "a" 1 1 "m" 0 =
       record_hash [] "a" 1 1 "m" 0 ∧
     is_duplicate 2 (record_hash [] "a" 1 1 "m" 0) "a" 1 1 = true) :=
  ⟨by norm_num, C8_record_idempotent_seen [] "a" 1 1 "m" 0 1 2 (by norm_num)⟩

/-- Claim C9: a message whose text body is absent passes `apply_filters`
immediately whenever `strict_mode` is false, bypassing the keyword, regex,
sender, time-window, media-type and length checks. -/
theorem C9_no_text_bypass (m : Message) (f : Filters) (rs : String → String → Bool)
    (ht : m.text = none) (hs : f.strict_mode = false) :
    apply_filters m f rs = true := by
  simp [apply_filters, ht, hs]

theorem C9_witness :
    exMediaMsg.text = none ∧ exHardFilters.strict_mode = false ∧
    apply_filters exMediaMsg exHardFilters exRS = true :=
  ⟨rfl, rfl, C9_no_text_bypass exMediaMsg exHardFilters exRS rfl rfl⟩

/-- Claim C10: a target with `anti_loop` enabled whose chat id equals the
event's source chat is skipped by the loop body (no send is attempted), and
the per-target loop records it as not sent while continuing with the
remaining targets. -/
theorem C10_anti_loop (m : Message) (source_id : Int) (t : Target) (res : AttemptResult)
    (ts : List Target) (results : Int → AttemptResult) (ds : List (Int × Bool))
    (hloop : t.rules.anti_loop = true) (hid : t.chat_id = source_id)
    (hrest : forwardLoop m source_id results ts = .ok ds) :
    target_step m source_id t res = .skipped ∧
    forwardLoop m source_id results (t :: ts) = .ok ((t.chat_id, false) :: ds) := by
  have hstep : target_step m source_id t res = .skipped := by
    simp [target_step, hloop, hid]
  have hstep2 : target_step m source_id t (results t.chat_id) = .skipped := by
    simp [target_step, hloop, hid]
  refine ⟨hstep, ?_⟩
  simp [forwardLoop, hstep2, hrest, Except.map]

theorem C10_witness :
    exTarget.rules.anti_loop = true ∧ exTarget.chat_id = (100 : Int) ∧
    forwardLoop exMsg3 100 exOk [] = .ok [] ∧
    (target_step exMsg3 100 exTarget AttemptResult.ok = .skipped ∧
     forwardLoop exMsg3 100 exOk [exTarget] = .ok [(exTarget.chat_id, false)]) :=
  ⟨rfl, rfl, rfl, C10_anti_loop exMsg3 100 exTarget AttemptResult.ok [] exOk [] rfl rfl rfl⟩

end Copier
